import Mathlib

/-!
Formal model of the conversational session controller of the sahAIyak
repository (mental-health chat with image-augmented turns and request
throttling).

The model is a shallow embedding of the relevant source code:

* `src/src/App.tsx` — `mentalHealthService` (`_enforceRequestCooldown`,
  `startConversation`, `continueConversation`) and
  `imageAnalysisService.analyzeImageSentiment`;
* `src/unnamed/part_000` — the page-level handlers `sendMessage` and
  `startMentalHealthMode` that own the chat history.

Modelling conventions:

* The Remote Inference Gateway is an oracle. `startConversation` and the
  image-sentiment helper receive their gateway reply as an
  `Except String String` value (`Except.error msg` models a thrown error
  whose `message` field is `msg`); `continueConversation`'s completion
  call receives a function `String → Except String String` from the
  composed prompt to the reply, so that the prompt actually sent is
  observable.
* Time is an explicit integer clock (milliseconds, like `Date.now()`).
  Each operation takes the clock value at its entry; the only suspension
  modelled as advancing the clock is the cooldown's `setTimeout`, which
  advances it by exactly the requested wait.  Gateway calls are modelled
  as instantaneous.
* Each controller operation also returns a trace of `TraceEv` events
  recording, in program order, the cooldown suspension, the update of
  `_lastRequestTime`, and every gateway call together with the clock
  value at which it is issued.
-/

set_option linter.unusedVariables false
set_option maxRecDepth 8000

deriving instance DecidableEq for Except

/-- A `{role, content}` record as sent to the gateway
(`apiMessages` in `sendMessage`, `messages` in `continueConversation`). -/
structure ApiMessage where
  role : String
  content : String
  deriving DecidableEq, Repr

/-- A chat message as stored in the page state `chatMessages`
(`{role, content, timestamp}` in `src/unnamed/part_000`). -/
structure ChatMessage where
  role : String
  content : String
  timestamp : Int
  deriving DecidableEq, Repr

/-- The mutable throttle fields of `mentalHealthService`
(`_lastRequestTime`, `_minRequestInterval`, App.tsx lines 424-426). -/
structure ThrottleState where
  lastRequestTime : Int
  minRequestInterval : Int
  deriving DecidableEq, Repr

/-- The part of `analyzeImageSentiment`'s result that the controller
consumes: the sentiment text (App.tsx lines 400-404 / 408-415). -/
structure ImageAnalysis where
  sentiment : String
  deriving DecidableEq, Repr

/-- The result object of `continueConversation` (App.tsx lines 574-579),
restricted to the fields the caller consumes. -/
structure ContinueResult where
  message : String
  imageAnalysis : Option ImageAnalysis
  deriving DecidableEq, Repr

/-- Outcome surfaced by the page-level `sendMessage`: the empty-input
rejection (toast at part_000 lines 621-628), a successful assistant
reply, or a swallowed gateway failure (catch at lines 671-677). -/
inductive SendOutcome where
  | emptyInput : SendOutcome
  | ok (reply : String) : SendOutcome
  | failed (msg : String) : SendOutcome
  deriving DecidableEq, Repr

/-- Outcome surfaced by the page-level `startMentalHealthMode`. -/
inductive StartOutcome where
  | ok (initialMessage : String) : StartOutcome
  | failed (msg : String) : StartOutcome
  deriving DecidableEq, Repr

/-- Instrumentation events, in program order.  `waited a b` is the
cooldown suspension from clock `a` to clock `b`; `setLast t` is the
assignment `_lastRequestTime = Date.now()`; the three call events record
a gateway request being issued at the given clock value. -/
inductive TraceEv where
  | waited (startT endT : Int) : TraceEv
  | setLast (t : Int) : TraceEv
  | imageSentimentCall (t : Int) : TraceEv
  | completionCall (t : Int) : TraceEv
  | openingCall (t : Int) : TraceEv
  deriving DecidableEq, Repr

/-- Page state owned by the component in `src/unnamed/part_000`:
`chatMessages`, `currentMessage`, whether a chat image is staged
(`chatImage`), plus the service's throttle fields. -/
structure AppState where
  chatMessages : List ChatMessage
  currentMessage : String
  chatImage : Bool
  throttle : ThrottleState
  deriving DecidableEq, Repr

/-- The wait computed by `_enforceRequestCooldown` (App.tsx lines
429-434): `timeSinceLastRequest = now - _lastRequestTime`; if it is
below `_minRequestInterval` the code waits for the difference, else it
does not wait. -/
def computeWaitTime (now lastRequestTime minRequestInterval : Int) : Int :=
  if now - lastRequestTime < minRequestInterval then
    minRequestInterval - (now - lastRequestTime)
  else 0

/-- Clock value when `_enforceRequestCooldown` finishes, given entry
clock `now`: the entry clock plus the computed wait. -/
def cooldownEnd (st : ThrottleState) (now : Int) : Int :=
  now + computeWaitTime now st.lastRequestTime st.minRequestInterval

/-- `mentalHealthService._enforceRequestCooldown` (App.tsx lines
428-439): optionally suspend, then set `_lastRequestTime = Date.now()`.
Returns the clock after the cooldown, the updated throttle state, and
the trace of the suspension and the timestamp update. -/
def enforceRequestCooldownTr (st : ThrottleState) (now : Int) :
    Int × ThrottleState × List TraceEv :=
  let waitTime := computeWaitTime now st.lastRequestTime st.minRequestInterval
  let after := now + waitTime
  (after, { st with lastRequestTime := after },
    if 0 < waitTime then [TraceEv.waited now after, TraceEv.setLast after]
    else [TraceEv.setLast after])

/-- Substring search on character lists: `sub` occurs contiguously in
the second argument. -/
def isSubChars (sub : List Char) : List Char → Bool
  | [] => sub.isEmpty
  | c :: rest => List.isPrefixOf sub (c :: rest) || isSubChars sub rest

/-- JavaScript `String.prototype.includes`: `s` contains `sub` as a
substring. -/
def jsIncludes (s sub : String) : Bool :=
  isSubChars sub.data s.data

/-- JavaScript `String.prototype.trim`: drop leading and trailing
whitespace (whitespace modelled by `Char.isWhitespace`). -/
def jsTrim (s : String) : String :=
  String.mk (((s.data.dropWhile Char.isWhitespace).reverse.dropWhile Char.isWhitespace).reverse)

/-- The rate-limit test of `continueConversation`'s catch block
(App.tsx line 584): `error.message.includes('429') ||
error.message.includes('529')`. -/
def rateLimitSignal (msg : String) : Bool :=
  jsIncludes msg "429" || jsIncludes msg "529"

/-- The fallback sentiment text returned by `analyzeImageSentiment`'s
own catch block (App.tsx line 409). -/
def imageSentimentFallback : String :=
  "I can see you've shared a photo. Visual expressions can reflect many emotions - from joy to concern. I'd love to hear how you're actually feeling in your own words, as that's more reliable than my interpretation of an image."

/-- `imageAnalysisService.analyzeImageSentiment` (App.tsx lines
365-417).  The local vision step never throws (it has its own internal
catch and returns a value on both paths), so the only failure source is
the gateway call, received here as `gatewayReply`.  The surrounding
`try`/`catch` converts any failure into the fallback result, so this
function is total: it never propagates an error. -/
def analyzeImageSentiment (gatewayReply : Except String String) : ImageAnalysis :=
  match gatewayReply with
  | Except.ok text => { sentiment := text }
  | Except.error _ => { sentiment := imageSentimentFallback }

/-- The fixed text appended to the selected user message when an image
accompanies the turn (App.tsx line 533). -/
def imageNote : String := "\n\nI'm also sharing a photo of myself."

/-- The `findIndex` predicate of App.tsx lines 525-527:
`msg.role === "user" && (i === arr.length - 1 || arr[i + 1].role ===
"assistant")`. -/
def lastUserMessagePred (msgs : List ApiMessage) (i : Nat) : Bool :=
  match msgs.get? i with
  | some m =>
      m.role == "user" &&
        (i == msgs.length - 1 ||
          ((msgs.get? (i + 1)).map ApiMessage.role).getD "" == "assistant")
  | none => false

/-- `Array.prototype.findIndex` over the predicate above: the FIRST
index satisfying it, `none` when there is no match (`-1` in JS). -/
def findLastUserIdx (msgs : List ApiMessage) : Option Nat :=
  (List.range msgs.length).find? (lastUserMessagePred msgs)

/-- The image-context step of `continueConversation` (App.tsx lines
523-534): when a user image is present, append `imageNote` to the
content of the message at the index found by `findLastUserIdx` (no
change when the search fails). -/
def appendImageNote (msgs : List ApiMessage) : List ApiMessage :=
  match findLastUserIdx msgs with
  | none => msgs
  | some i =>
    match msgs.get? i with
    | none => msgs
    | some m => msgs.set i { m with content := m.content ++ imageNote }

/-- The behavioural preamble of the composed prompt (the template
literal at App.tsx lines 544-556, including its indentation). -/
def mentalHealthPreamble : String :=
  "You are an AI mental health assistant that prioritizes identifying hidden distress. Your purpose is to provide \n      supportive conversation while carefully watching for signs of concealed emotional struggle.\n      \n      Most people tend to hide their true emotional state with phrases like \"I'm fine\" or \"just tired\" - be gently\n      suspicious of such statements, especially in mental health contexts.\n      \n      Keep your responses compassionate, non-judgmental, and concise (under 150 words). Suggest tailored mindfulness\n      techniques or coping strategies when appropriate.\n      \n      Important: Always clarify you are not a replacement for professional mental health services.\n      \n      Previous conversation:\n      "

/-- The closing instruction appended to the composed prompt (App.tsx
line 563). -/
def respondInstruction : String :=
  "\n\nRespond to the person's most recent message with empathy and insight:"

/-- One history line of the composed prompt (App.tsx line 560):
a newline, `Person`/`Assistant` by role, a colon, the content. -/
def renderHistoryLine (msg : ApiMessage) : String :=
  "\n" ++ (if msg.role == "user" then "Person" else "Assistant") ++ ": " ++ msg.content

/-- Prompt composition of `continueConversation` (App.tsx lines
544-563): start from the preamble, `+=` one rendered line per message
via `forEach`, finally `+=` the closing instruction. -/
def composePrompt (enhancedMessages : List ApiMessage) : String :=
  enhancedMessages.foldl (fun fullPrompt msg => fullPrompt ++ renderHistoryLine msg)
    mentalHealthPreamble ++ respondInstruction

/-- Spec-side rendering of the history as a sequence of
`Person:`/`Assistant:` lines, used to state the structural claim about
`composePrompt` (this is the one definition following the spec's words,
to be compared with the source-derived `composePrompt`). -/
def renderHistory : List ApiMessage → String
  | [] => ""
  | msg :: rest => renderHistoryLine msg ++ renderHistory rest

/-- `mentalHealthService.continueConversation` (App.tsx lines 492-598).
In program order: enforce the cooldown (line 495); if a user image is
present, derive its sentiment via `analyzeImageSentiment` (which cannot
throw, so the dead inner catch at lines 513-521 is unreachable) and
append `imageNote` to the found user message (lines 505-534); compose
the prompt (lines 544-563); issue the completion call (lines 566-572).
On completion failure the catch block (lines 580-597) sets
`_minRequestInterval = 10000` when the message contains `429`/`529`,
then rethrows. -/
def continueConversationTr (st : ThrottleState) (now : Int)
    (messages : List ApiMessage) (userImage : Bool)
    (imageOracle : Except String String)
    (completionOracle : String → Except String String) :
    Except String ContinueResult × ThrottleState × List TraceEv :=
  let c := enforceRequestCooldownTr st now
  let t1 := c.1
  let st1 := c.2.1
  let enhancedMessages := if userImage then appendImageNote messages else messages
  let imageAnalysis : Option ImageAnalysis :=
    if userImage then some (analyzeImageSentiment imageOracle) else none
  let fullPrompt := composePrompt enhancedMessages
  let trace := c.2.2 ++ (if userImage then [TraceEv.imageSentimentCall t1] else [])
    ++ [TraceEv.completionCall t1]
  match completionOracle fullPrompt with
  | Except.ok text => (Except.ok { message := text, imageAnalysis := imageAnalysis }, st1, trace)
  | Except.error msg =>
    (Except.error msg,
      if rateLimitSignal msg then { st1 with minRequestInterval := 10000 } else st1,
      trace)

/-- `mentalHealthService.startConversation` (App.tsx lines 442-489).
It issues its gateway call directly — it neither calls
`_enforceRequestCooldown` nor touches the throttle fields; on success
it returns a one-element `messages` array holding the assistant reply;
on failure it rethrows after a toast (no state change). -/
def startConversationTr (st : ThrottleState) (now : Int)
    (gatewayReply : Except String String) :
    Except String (List ApiMessage) × ThrottleState × List TraceEv :=
  match gatewayReply with
  | Except.ok text =>
    (Except.ok [{ role := "assistant", content := text }], st, [TraceEv.openingCall now])
  | Except.error msg => (Except.error msg, st, [TraceEv.openingCall now])

/-- Projection used by `sendMessage` (part_000 lines 646-649):
`{role: msg.role, content: msg.content}`. -/
def toApiMessage (m : ChatMessage) : ApiMessage :=
  { role := m.role, content := m.content }

/-- The page-level `sendMessage` (part_000 lines 620-681).  Validation:
reject when `currentMessage.trim()` is empty and no image is staged
(lines 621-628).  Otherwise append the trimmed user message, clear the
input box, call `continueConversation`; on success append the assistant
reply and clear the staged image; on failure keep the user message (and
the staged image) and swallow the error. -/
def sendMessageTr (s : AppState) (now : Int)
    (imageOracle : Except String String)
    (completionOracle : String → Except String String) :
    AppState × SendOutcome × List TraceEv :=
  if jsTrim s.currentMessage == "" && !s.chatImage then
    (s, SendOutcome.emptyInput, [])
  else
    let userMessage : ChatMessage :=
      { role := "user", content := jsTrim s.currentMessage, timestamp := now }
    let updatedMessages := s.chatMessages ++ [userMessage]
    let apiMessages := updatedMessages.map toApiMessage
    let r := continueConversationTr s.throttle now apiMessages s.chatImage
      imageOracle completionOracle
    match r.1 with
    | Except.ok result =>
      ({ chatMessages :=
           updatedMessages ++ [{ role := "assistant", content := result.message, timestamp := now }],
         currentMessage := "", chatImage := false, throttle := r.2.1 },
       SendOutcome.ok result.message, r.2.2)
    | Except.error msg =>
      ({ chatMessages := updatedMessages, currentMessage := "", chatImage := s.chatImage,
         throttle := r.2.1 },
       SendOutcome.failed msg, r.2.2)

/-- The page-level `startMentalHealthMode` (part_000 lines 586-617).
On success it replaces the chat history with the single assistant
greeting (`initialResponse.messages[0].content`); on failure it leaves
all state unchanged. -/
def startMentalHealthModeTr (s : AppState) (now : Int)
    (gatewayReply : Except String String) :
    AppState × StartOutcome × List TraceEv :=
  let r := startConversationTr s.throttle now gatewayReply
  match r.1 with
  | Except.ok msgs =>
    let initialMessage := (msgs.headD { role := "assistant", content := "" }).content
    ({ s with chatMessages :=
        [{ role := "assistant", content := initialMessage, timestamp := now }] },
     StartOutcome.ok initialMessage, r.2.2)
  | Except.error msg => (s, StartOutcome.failed msg, r.2.2)

/-- A controller operation issued by the presentation layer, carrying
the clock value at its entry and the gateway oracles it will consume. -/
inductive CtrlOp where
  | start (now : Int) (gatewayReply : Except String String) : CtrlOp
  | send (now : Int) (imageOracle : Except String String)
      (completionOracle : String → Except String String) : CtrlOp

/-- One controller operation applied to the page state. -/
def appStep (s : AppState) : CtrlOp → AppState × List TraceEv
  | CtrlOp.start now gatewayReply =>
    let r := startMentalHealthModeTr s now gatewayReply
    (r.1, r.2.2)
  | CtrlOp.send now imageOracle completionOracle =>
    let r := sendMessageTr s now imageOracle completionOracle
    (r.1, r.2.2)

/-- A sequence of controller operations, accumulating the trace. -/
def appRun (s : AppState) : List CtrlOp → AppState × List TraceEv
  | [] => (s, [])
  | op :: ops =>
    let r := appStep s op
    let r' := appRun r.1 ops
    (r'.1, r.2 ++ r'.2)

/-- Initial page state: empty chat, empty input, no staged image,
`_lastRequestTime = 0`, `_minRequestInterval = 5000` (App.tsx lines
425-426). -/
def initialAppState : AppState :=
  { chatMessages := [], currentMessage := "", chatImage := false,
    throttle := { lastRequestTime := 0, minRequestInterval := 5000 } }

/-- States reachable from the initial state by controller operations. -/
def AppReachable (s : AppState) : Prop :=
  ∃ ops : List CtrlOp, s = (appRun initialAppState ops).1

/-- Invariant: the minimum request interval is one of its two
programmed values. -/
def MinInv (s : AppState) : Prop :=
  s.throttle.minRequestInterval = 5000 ∨ s.throttle.minRequestInterval = 10000

/-- The clock value of a gateway-call event, `none` for other events. -/
def callTime : TraceEv → Option Int
  | TraceEv.imageSentimentCall t => some t
  | TraceEv.completionCall t => some t
  | TraceEv.openingCall t => some t
  | _ => none

/-- Whether an event is the cooldown suspension. -/
def isWaited : TraceEv → Bool
  | TraceEv.waited _ _ => true
  | _ => false

/-- Whether an event is the image-sentiment gateway call. -/
def isImageCall : TraceEv → Bool
  | TraceEv.imageSentimentCall _ => true
  | _ => false

/-- Whether an event is the `_lastRequestTime` update. -/
def isSetLast : TraceEv → Bool
  | TraceEv.setLast _ => true
  | _ => false

/-- Whether an event is the main completion gateway call. -/
def isCompletionCall : TraceEv → Bool
  | TraceEv.completionCall _ => true
  | _ => false

/-- Whether an event belongs to cooldown enforcement (the suspension or
the `_lastRequestTime` update). -/
def isCooldownEvent : TraceEv → Bool
  | TraceEv.waited _ _ => true
  | TraceEv.setLast _ => true
  | _ => false

/-- Claim predicate for the cooldown invariant: every gateway call
issued during the operation happens at a clock value at least
`minRequestInterval` after the `lastRequestTime` recorded at the
operation's entry. -/
def opCallsCooldowned (s : AppState) (op : CtrlOp) : Bool :=
  ((appStep s op).2).all fun ev =>
    match callTime ev with
    | some t => decide (s.throttle.minRequestInterval ≤ t - s.throttle.lastRequestTime)
    | none => true

/-- Claim predicate for the step order: the image-sentiment call occurs
before any cooldown-enforcement event (vacuously true when either is
absent). -/
def imageCallBeforeCooldown (tr : List TraceEv) : Bool :=
  match tr.findIdx? isImageCall, tr.findIdx? isCooldownEvent with
  | some i, some j => decide (i < j)
  | _, _ => true

/-- Claim predicate for the step order: no gateway call occurs strictly
between the `_lastRequestTime` update and the completion call
(vacuously true when either is absent). -/
def noCallBetweenUpdateAndCompletion (tr : List TraceEv) : Bool :=
  match tr.findIdx? isSetLast, tr.findIdx? isCompletionCall with
  | some j, some k =>
    ((List.range tr.length).filter fun m => decide (j < m) && decide (m < k)).all
      fun m => (callTime (tr.getD m (TraceEv.setLast 0))).isNone
  | _, _ => true

theorem computeWaitTime_spec (now last minInt : Int) :
    0 ≤ computeWaitTime now last minInt ∧
      computeWaitTime now last minInt =
        (if 0 < minInt - (now - last) then minInt - (now - last) else 0) := by
  unfold computeWaitTime
  constructor
  · split <;> omega
  · split <;> split <;> omega

/-- C2: the throttle wait is the non-negative part of
`minIntervalMs - (now - lastRequestTimestamp)`, and at
`now = 1005`, `lastRequestTimestamp = 1000`, `minIntervalMs = 5000`
it equals `4995`. -/
theorem C2_throttle_wait :
    (∀ now last minInt : Int,
        0 ≤ computeWaitTime now last minInt ∧
          computeWaitTime now last minInt =
            (if 0 < minInt - (now - last) then minInt - (now - last) else 0)) ∧
      computeWaitTime 1005 1000 5000 = 4995 :=
  ⟨computeWaitTime_spec, by decide⟩

theorem validGuard_false (s : AppState)
    (hvalid : ¬(jsTrim s.currentMessage = "" ∧ s.chatImage = false)) :
    (jsTrim s.currentMessage == "" && !s.chatImage) = false := by
  rcases eq_or_ne (jsTrim s.currentMessage) "" with ht | ht
  · have hb : s.chatImage = true := by
      cases hc : s.chatImage
      · exact absurd ⟨ht, hc⟩ hvalid
      · rfl
    simp [hb]
  · simp [ht]

/-- C4: with blank `userText` and no staged image, `sendMessage` rejects
with the empty-input toast before any mutation: the state is returned
unchanged, the outcome is `emptyInput`, and no gateway activity occurs
(the trace is empty). -/
theorem C4_empty_input (s : AppState) (now : Int)
    (imageOracle : Except String String)
    (completionOracle : String → Except String String)
    (h1 : jsTrim s.currentMessage = "") (h2 : s.chatImage = false) :
    sendMessageTr s now imageOracle completionOracle = (s, SendOutcome.emptyInput, []) := by
  unfold sendMessageTr
  simp [h1, h2]

theorem C4_empty_input_witness :
    sendMessageTr initialAppState 3 (Except.ok "a") (fun _ => Except.ok "b")
      = (initialAppState, SendOutcome.emptyInput, []) :=
  C4_empty_input initialAppState 3 (Except.ok "a") (fun _ => Except.ok "b") (by decide) rfl

theorem continueConversationTr_ok (st : ThrottleState) (now : Int)
    (messages : List ApiMessage) (userImage : Bool)
    (imageOracle : Except String String)
    (completionOracle : String → Except String String) (text : String)
    (h : completionOracle
        (composePrompt (if userImage then appendImageNote messages else messages))
      = Except.ok text) :
    continueConversationTr st now messages userImage imageOracle completionOracle =
      (Except.ok
        { message := text,
          imageAnalysis :=
            if userImage then some (analyzeImageSentiment imageOracle) else none },
       { lastRequestTime := cooldownEnd st now,
         minRequestInterval := st.minRequestInterval },
       (enforceRequestCooldownTr st now).2.2 ++
         (if userImage then [TraceEv.imageSentimentCall (cooldownEnd st now)] else []) ++
         [TraceEv.completionCall (cooldownEnd st now)]) := by
  simp only [continueConversationTr, enforceRequestCooldownTr, cooldownEnd, h]

theorem continueConversationTr_error (st : ThrottleState) (now : Int)
    (messages : List ApiMessage) (userImage : Bool)
    (imageOracle : Except String String)
    (completionOracle : String → Except String String) (msg : String)
    (h : completionOracle
        (composePrompt (if userImage then appendImageNote messages else messages))
      = Except.error msg) :
    continueConversationTr st now messages userImage imageOracle completionOracle =
      (Except.error msg,
       (if rateLimitSignal msg
        then { lastRequestTime := cooldownEnd st now, minRequestInterval := 10000 }
        else { lastRequestTime := cooldownEnd st now,
               minRequestInterval := st.minRequestInterval }),
       (enforceRequestCooldownTr st now).2.2 ++
         (if userImage then [TraceEv.imageSentimentCall (cooldownEnd st now)] else []) ++
         [TraceEv.completionCall (cooldownEnd st now)]) := by
  simp only [continueConversationTr, enforceRequestCooldownTr, cooldownEnd, h]

theorem continueConversationTr_trace (st : ThrottleState) (now : Int)
    (messages : List ApiMessage) (userImage : Bool)
    (imageOracle : Except String String)
    (completionOracle : String → Except String String) :
    (continueConversationTr st now messages userImage imageOracle completionOracle).2.2 =
      (enforceRequestCooldownTr st now).2.2 ++
        (if userImage then [TraceEv.imageSentimentCall (cooldownEnd st now)] else []) ++
        [TraceEv.completionCall (cooldownEnd st now)] := by
  cases h : completionOracle
      (composePrompt (if userImage then appendImageNote messages else messages)) with
  | ok text => rw [continueConversationTr_ok st now messages userImage imageOracle
      completionOracle text h]
  | error msg => rw [continueConversationTr_error st now messages userImage imageOracle
      completionOracle msg h]

/-- C5: for a `sendMessage` call that passes validation, a successful
call appends exactly the trimmed user message followed by the assistant
reply (message count +2), and a failing call appends exactly the user
message (message count +1): the user message is not rolled back and no
assistant message is appended. -/
theorem C5_message_count (s : AppState) (now : Int)
    (imageOracle : Except String String)
    (completionOracle : String → Except String String)
    (hvalid : ¬(jsTrim s.currentMessage = "" ∧ s.chatImage = false)) :
    (∀ r, (sendMessageTr s now imageOracle completionOracle).2.1 = SendOutcome.ok r →
      ((sendMessageTr s now imageOracle completionOracle).1).chatMessages
          = s.chatMessages ++
            [{ role := "user", content := jsTrim s.currentMessage, timestamp := now },
             { role := "assistant", content := r, timestamp := now }] ∧
        ((sendMessageTr s now imageOracle completionOracle).1).chatMessages.length
          = s.chatMessages.length + 2) ∧
    (∀ e, (sendMessageTr s now imageOracle completionOracle).2.1 = SendOutcome.failed e →
      ((sendMessageTr s now imageOracle completionOracle).1).chatMessages
          = s.chatMessages ++
            [{ role := "user", content := jsTrim s.currentMessage, timestamp := now }] ∧
        ((sendMessageTr s now imageOracle completionOracle).1).chatMessages.length
          = s.chatMessages.length + 1) := by
  have hg := validGuard_false s hvalid
  unfold sendMessageTr
  rw [hg]
  simp only [Bool.false_eq_true, if_false]
  cases hco : completionOracle
      (composePrompt
        (if s.chatImage then
          appendImageNote
            ((s.chatMessages ++
              [({ role := "user", content := jsTrim s.currentMessage, timestamp := now } :
                ChatMessage)]).map
              toApiMessage)
        else
          (s.chatMessages ++
            [({ role := "user", content := jsTrim s.currentMessage, timestamp := now } :
              ChatMessage)]).map
            toApiMessage)) with
  | ok text =>
    rw [continueConversationTr_ok _ _ _ _ _ _ _ hco]
    constructor
    · intro r hr
      cases hr
      simp
    · intro e he
      cases he
  | error msg =>
    rw [continueConversationTr_error _ _ _ _ _ _ _ hco]
    constructor
    · intro r hr
      cases hr
    · intro e he
      cases he
      simp

theorem C5_message_count_witness :
    ((sendMessageTr
        { chatMessages := [], currentMessage := "hi", chatImage := false,
          throttle := { lastRequestTime := 0, minRequestInterval := 5000 } } 7
        (Except.ok "img") (fun _ => Except.ok "reply")).1).chatMessages
      = [{ role := "user", content := "hi", timestamp := 7 },
         { role := "assistant", content := "reply", timestamp := 7 }] ∧
    ((sendMessageTr
        { chatMessages := [], currentMessage := "hi", chatImage := false,
          throttle := { lastRequestTime := 0, minRequestInterval := 5000 } } 7
        (Except.ok "img") (fun _ => Except.error "boom")).1).chatMessages
      = [{ role := "user", content := "hi", timestamp := 7 }] := by
  constructor
  · have h := (C5_message_count
      { chatMessages := [], currentMessage := "hi", chatImage := false,
        throttle := { lastRequestTime := 0, minRequestInterval := 5000 } }
      7
      (Except.ok "img") (fun _ => Except.ok "reply") (by decide)).1 "reply" (by decide)
    simpa using h.1
  · have h := (C5_message_count
      { chatMessages := [], currentMessage := "hi", chatImage := false,
        throttle := { lastRequestTime := 0, minRequestInterval := 5000 } }
      7
      (Except.ok "img") (fun _ => Except.error "boom") (by decide)).2 "boom" (by decide)
    simpa using h.1

/-- C10: for every `sendMessage` call that passes validation, the user
message appended at index `|chatMessages|` has content equal to
`currentMessage` with surrounding whitespace removed (`jsTrim`), not
the verbatim input. -/
theorem C10_trimmed_content (s : AppState) (now : Int)
    (imageOracle : Except String String)
    (completionOracle : String → Except String String)
    (hvalid : ¬(jsTrim s.currentMessage = "" ∧ s.chatImage = false)) :
    ((sendMessageTr s now imageOracle completionOracle).1).chatMessages.get?
        s.chatMessages.length
      = some { role := "user", content := jsTrim s.currentMessage, timestamp := now } := by
  have hg := validGuard_false s hvalid
  unfold sendMessageTr
  rw [hg]
  simp only [Bool.false_eq_true, if_false]
  cases hco : completionOracle
      (composePrompt
        (if s.chatImage then
          appendImageNote
            ((s.chatMessages ++
              [({ role := "user", content := jsTrim s.currentMessage, timestamp := now } :
                ChatMessage)]).map
              toApiMessage)
        else
          (s.chatMessages ++
            [({ role := "user", content := jsTrim s.currentMessage, timestamp := now } :
              ChatMessage)]).map
            toApiMessage)) with
  | ok text =>
    rw [continueConversationTr_ok _ _ _ _ _ _ _ hco]
    dsimp only
    rw [List.append_assoc, List.get?_append_right (le_refl s.chatMessages.length)]
    simp
  | error msg =>
    rw [continueConversationTr_error _ _ _ _ _ _ _ hco]
    dsimp only
    rw [List.get?_append_right (le_refl s.chatMessages.length)]
    simp

theorem C10_trimmed_content_witness :
    ((sendMessageTr
        { chatMessages := [], currentMessage := "   ", chatImage := true,
          throttle := { lastRequestTime := 0, minRequestInterval := 5000 } } 4
        (Except.error "imgfail") (fun _ => Except.ok "reply")).1).chatMessages.get? 0
      = some { role := "user", content := "", timestamp := 4 } := by
  have h := C10_trimmed_content
    { chatMessages := [], currentMessage := "   ", chatImage := true,
      throttle := { lastRequestTime := 0, minRequestInterval := 5000 } }
    4 (Except.error "imgfail") (fun _ => Except.ok "reply") (by decide)
  simpa using h

theorem foldl_renderHistoryLine (l : List ApiMessage) (init : String) :
    l.foldl (fun fullPrompt msg => fullPrompt ++ renderHistoryLine msg) init
      = init ++ renderHistory l := by
  induction l generalizing init with
  | nil => simp [renderHistory]
  | cons m rest ih =>
    simp only [List.foldl, renderHistory, ih, String.append_assoc]

/-- C8: prompt composition is a pure function of the (image-note
enhanced) history: it is deterministic — identical inputs give
byte-identical output — and its output is exactly the fixed behavioural
preamble, followed by the history rendered one `Person:`/`Assistant:`
line per message, followed by the fixed instruction to respond to the
latest message. -/
theorem C8_compose_deterministic :
    (∀ h1 h2 : List ApiMessage, h1 = h2 → composePrompt h1 = composePrompt h2) ∧
    (∀ msgs : List ApiMessage,
      composePrompt msgs = mentalHealthPreamble ++ renderHistory msgs ++ respondInstruction) := by
  constructor
  · intro h1 h2 h
    rw [h]
  · intro msgs
    unfold composePrompt
    rw [foldl_renderHistoryLine, String.append_assoc]

theorem C8_compose_deterministic_witness :
    composePrompt [{ role := "user", content := "hello" }]
      = composePrompt [{ role := "user", content := "hello" }] ∧
    composePrompt [{ role := "user", content := "hello" }]
      = mentalHealthPreamble ++ renderHistory [{ role := "user", content := "hello" }]
          ++ respondInstruction :=
  ⟨C8_compose_deterministic.1 [{ role := "user", content := "hello" }]
      [{ role := "user", content := "hello" }] rfl,
   C8_compose_deterministic.2 [{ role := "user", content := "hello" }]⟩

/-- C6 counterexample: a successful `startMentalHealthMode` whose
gateway reply is the empty string yields a Conversation of length 1
whose sole assistant message has EMPTY content, so the claim's
"one assistant message with non-empty content" is false as stated:
nothing in the code guarantees the gateway text is non-empty. -/
theorem C6_start_counterexample :
    (startMentalHealthModeTr initialAppState 0 (Except.ok "")).2.1 = StartOutcome.ok "" ∧
    ((startMentalHealthModeTr initialAppState 0 (Except.ok "")).1).chatMessages.length = 1 ∧
    ¬ (∀ m ∈ ((startMentalHealthModeTr initialAppState 0 (Except.ok "")).1).chatMessages,
        m.content ≠ "") := by
  refine ⟨by decide, by decide, ?_⟩
  intro h
  exact h { role := "assistant", content := "", timestamp := 0 } (by decide) rfl

/-- C6 amended: `startMentalHealthMode` is atomic with respect to
failure — on a gateway error it fails and leaves the whole state
(in particular an empty Conversation) unchanged; on success the
Conversation consists of exactly one assistant message whose content is
the gateway's returned text (hence non-empty whenever that text is
non-empty), and that text is what the call returns. -/
theorem C6_start_amended (s : AppState) (now : Int) :
    (∀ e, startMentalHealthModeTr s now (Except.error e)
        = (s, StartOutcome.failed e, [TraceEv.openingCall now])) ∧
    (∀ t, startMentalHealthModeTr s now (Except.ok t)
        = ({ s with chatMessages := [{ role := "assistant", content := t, timestamp := now }] },
           StartOutcome.ok t, [TraceEv.openingCall now])) ∧
    (∀ t, t ≠ "" →
      ∀ m ∈ ((startMentalHealthModeTr s now (Except.ok t)).1).chatMessages, m.content ≠ "") := by
  refine ⟨fun e => rfl, fun t => rfl, fun t ht m hm => ?_⟩
  simp only [startMentalHealthModeTr, startConversationTr, List.headD] at hm
  simp only [List.mem_singleton] at hm
  subst hm
  exact ht

theorem C6_start_amended_witness :
    startMentalHealthModeTr initialAppState 3 (Except.error "down")
      = (initialAppState, StartOutcome.failed "down", [TraceEv.openingCall 3]) ∧
    startMentalHealthModeTr initialAppState 3 (Except.ok "hello")
      = ({ initialAppState with
            chatMessages := [{ role := "assistant", content := "hello", timestamp := 3 }] },
         StartOutcome.ok "hello", [TraceEv.openingCall 3]) ∧
    ({ role := "assistant", content := "hello", timestamp := 3 } : ChatMessage).content ≠ "" :=
  ⟨(C6_start_amended initialAppState 3).1 "down",
   (C6_start_amended initialAppState 3).2.1 "hello",
   (C6_start_amended initialAppState 3).2.2 "hello" (by decide)
     { role := "assistant", content := "hello", timestamp := 3 } (by decide)⟩

/-- C7 counterexample: in a multi-turn conversation
`[assistant "a", user "u1", assistant "b", user "x"]` with an image and
a failing image-sentiment helper, the turn does complete with the
fallback sentiment and an assistant reply, but the fixed photo note is
appended to the FIRST user message (`"u1"`, index 1 — the `findIndex`
search matches it because an assistant message follows), while the
just-added user message (`"x"`, index 3) does not receive the note —
refuting "the user message still receives the fixed text note" for the
just-sent message. -/
theorem C7_image_counterexample :
    (continueConversationTr { lastRequestTime := 0, minRequestInterval := 5000 } 0
        [{ role := "assistant", content := "a" }, { role := "user", content := "u1" },
         { role := "assistant", content := "b" }, { role := "user", content := "x" }]
        true (Except.error "boom") (fun _ => Except.ok "reply")).1
      = Except.ok
          { message := "reply",
            imageAnalysis := some { sentiment := imageSentimentFallback } } ∧
    (appendImageNote
        [{ role := "assistant", content := "a" }, { role := "user", content := "u1" },
         { role := "assistant", content := "b" }, { role := "user", content := "x" }]).get? 1
      = some { role := "user", content := "u1" ++ imageNote } ∧
    (appendImageNote
        [{ role := "assistant", content := "a" }, { role := "user", content := "u1" },
         { role := "assistant", content := "b" }, { role := "user", content := "x" }]).get? 3
      = some { role := "user", content := "x" } ∧
    ¬ ((appendImageNote
        [{ role := "assistant", content := "a" }, { role := "user", content := "u1" },
         { role := "assistant", content := "b" }, { role := "user", content := "x" }]).get? 3
      = some { role := "user", content := "x" ++ imageNote }) := by
  exact ⟨by decide, by decide, by decide, by decide⟩

/-- C7 amended: when `sendTurn` runs with an image and the
image-sentiment helper's gateway call fails, the failure is never
propagated and never aborts the turn — the whole turn behaves exactly
as if the helper had succeeded returning the generic neutral fallback
text: the fallback is substituted as the sentiment, the fixed photo
note is appended (inside the outgoing prompt messages) to the first
user message that is last or followed by an assistant message — which
is the just-added message only in the first exchange — and the
assistant reply is still produced whenever the completion call
succeeds. -/
theorem C7_image_amended (st : ThrottleState) (now : Int) (msgs : List ApiMessage)
    (e : String) (co : String → Except String String) :
    continueConversationTr st now msgs true (Except.error e) co
      = continueConversationTr st now msgs true (Except.ok imageSentimentFallback) co ∧
    (∀ r, co (composePrompt (appendImageNote msgs)) = Except.ok r →
      (continueConversationTr st now msgs true (Except.error e) co).1
        = Except.ok
            { message := r,
              imageAnalysis := some { sentiment := imageSentimentFallback } }) := by
  constructor
  · rfl
  · intro r hr
    rw [continueConversationTr_ok st now msgs true (Except.error e) co r hr]
    rfl

theorem C7_image_amended_witness :
    (continueConversationTr { lastRequestTime := 0, minRequestInterval := 5000 } 0 [] true
        (Except.error "x") (fun _ => Except.ok "hello")).1
      = Except.ok
          { message := "hello",
            imageAnalysis := some { sentiment := imageSentimentFallback } } :=
  (C7_image_amended { lastRequestTime := 0, minRequestInterval := 5000 } 0 [] "x"
    (fun _ => Except.ok "hello")).2 "hello" rfl

/-- C9 counterexample: in a `continueConversation` turn with an image
(initial throttle state, entry clock 0), the trace is
`[waited 0 5000, setLast 5000, imageSentimentCall 5000,
completionCall 5000]`.  The image-sentiment call (index 2) comes AFTER
the cooldown enforcement events (indices 0 and 1), refuting
"image annotation happens before cooldown enforcement"; and it lies
strictly between the `lastRequestTimestamp` update (index 1) and the
completion call (index 3), refuting "no other gateway call between the
update and that call". -/
theorem C9_order_counterexample :
    (continueConversationTr { lastRequestTime := 0, minRequestInterval := 5000 } 0 [] true
        (Except.ok "s") (fun _ => Except.ok "r")).2.2
      = [TraceEv.waited 0 5000, TraceEv.setLast 5000, TraceEv.imageSentimentCall 5000,
         TraceEv.completionCall 5000] ∧
    imageCallBeforeCooldown
        ((continueConversationTr { lastRequestTime := 0, minRequestInterval := 5000 } 0 [] true
          (Except.ok "s") (fun _ => Except.ok "r")).2.2) = false ∧
    noCallBetweenUpdateAndCompletion
        ((continueConversationTr { lastRequestTime := 0, minRequestInterval := 5000 } 0 [] true
          (Except.ok "s") (fun _ => Except.ok "r")).2.2) = false := by
  exact ⟨by decide, by decide, by decide⟩

/-- C9 amended: within a single `sendTurn`, cooldown enforcement comes
FIRST: the optional suspension and the `lastRequestTimestamp` update
precede everything else; when an image is present the image-sentiment
gateway call is issued after the update and before the completion call
(so a gateway call does intervene between the update and the completion
call); with no image, the completion call directly follows the update. -/
theorem C9_order_amended (st : ThrottleState) (now : Int) (msgs : List ApiMessage)
    (imageOracle : Except String String)
    (completionOracle : String → Except String String) :
    (continueConversationTr st now msgs true imageOracle completionOracle).2.2 =
      (if 0 < computeWaitTime now st.lastRequestTime st.minRequestInterval
       then [TraceEv.waited now (cooldownEnd st now)] else []) ++
        [TraceEv.setLast (cooldownEnd st now), TraceEv.imageSentimentCall (cooldownEnd st now),
         TraceEv.completionCall (cooldownEnd st now)] ∧
    (continueConversationTr st now msgs false imageOracle completionOracle).2.2 =
      (if 0 < computeWaitTime now st.lastRequestTime st.minRequestInterval
       then [TraceEv.waited now (cooldownEnd st now)] else []) ++
        [TraceEv.setLast (cooldownEnd st now), TraceEv.completionCall (cooldownEnd st now)] := by
  constructor
  · rw [continueConversationTr_trace]
    simp only [enforceRequestCooldownTr, cooldownEnd, if_true]
    split <;> simp
  · rw [continueConversationTr_trace]
    simp only [enforceRequestCooldownTr, cooldownEnd, if_false]
    split <;> simp

/-- C1 counterexample: from the initial state (which is reachable —
the empty operation sequence), a `startMentalHealthMode` at clock 1
issues its gateway call with NO preceding wait (the trace contains no
suspension event at all, only the call), and the call happens at clock
1 with `lastRequestTime = 0` and `minRequestInterval = 5000`, so
`now - lastRequestTimestamp = 1 < 5000`: `startConversation` never
calls `_enforceRequestCooldown`, refuting the claim for the call it
makes. -/
theorem C1_cooldown_counterexample :
    opCallsCooldowned initialAppState (CtrlOp.start 1 (Except.ok "hello")) = false ∧
    (appStep initialAppState (CtrlOp.start 1 (Except.ok "hello"))).2
      = [TraceEv.openingCall 1] ∧
    ((appStep initialAppState (CtrlOp.start 1 (Except.ok "hello"))).2).filter isWaited = [] ∧
    AppReachable initialAppState :=
  ⟨by decide, by decide, by decide, ⟨[], rfl⟩⟩

/-- C1 amended: the cooldown guarantee holds exactly for the calls
issued by `continueConversation` (both the image-sentiment call and the
completion call): each such call happens at a clock `t` with
`t - lastRequestTimestamp ≥ minIntervalMs`, where `lastRequestTimestamp`
and `minIntervalMs` are the throttle values at the turn's entry — the
single cooldown performed at the start of the turn establishes this.
The call made by `startConversation` enjoys no such guarantee (see the
counterexample). -/
theorem C1_cooldown_amended (st : ThrottleState) (now : Int) (msgs : List ApiMessage)
    (userImage : Bool) (imageOracle : Except String String)
    (completionOracle : String → Except String String)
    (ev : TraceEv) (t : Int)
    (hmem : ev ∈ (continueConversationTr st now msgs userImage imageOracle
      completionOracle).2.2)
    (ht : callTime ev = some t) :
    st.minRequestInterval ≤ t - st.lastRequestTime := by
  rw [continueConversationTr_trace] at hmem
  have hle : st.minRequestInterval ≤ cooldownEnd st now - st.lastRequestTime := by
    unfold cooldownEnd computeWaitTime
    split <;> omega
  simp only [enforceRequestCooldownTr, List.mem_append] at hmem
  rcases hmem with (hmem | hmem) | hmem
  · rcases (by split at hmem <;> simp_all [cooldownEnd] :
        ev = TraceEv.waited now (cooldownEnd st now) ∨
        ev = TraceEv.setLast (cooldownEnd st now)) with h | h <;>
      subst h <;> simp [callTime] at ht
  · rcases (by split at hmem <;> simp_all [cooldownEnd] :
        ev = TraceEv.imageSentimentCall (cooldownEnd st now)) with h
    subst h
    simp only [callTime, Option.some.injEq] at ht
    omega
  · simp only [List.mem_singleton] at hmem
    subst hmem
    simp only [callTime, Option.some.injEq] at ht
    omega

theorem C1_cooldown_amended_witness :
    ({ lastRequestTime := 0, minRequestInterval := 5000 } : ThrottleState).minRequestInterval
      ≤ 5000 - ({ lastRequestTime := 0, minRequestInterval := 5000 } :
          ThrottleState).lastRequestTime :=
  C1_cooldown_amended { lastRequestTime := 0, minRequestInterval := 5000 } 0 [] false
    (Except.ok "a") (fun _ => Except.ok "b") (TraceEv.completionCall 5000) 5000
    (by decide) rfl

theorem continueConversationTr_min_cases (st : ThrottleState) (now : Int)
    (messages : List ApiMessage) (userImage : Bool)
    (imageOracle : Except String String)
    (completionOracle : String → Except String String) :
    ((continueConversationTr st now messages userImage imageOracle
        completionOracle).2.1).minRequestInterval = st.minRequestInterval ∨
    ((continueConversationTr st now messages userImage imageOracle
        completionOracle).2.1).minRequestInterval = 10000 := by
  cases h : completionOracle
      (composePrompt (if userImage then appendImageNote messages else messages)) with
  | ok text =>
    rw [continueConversationTr_ok st now messages userImage imageOracle
      completionOracle text h]
    exact Or.inl rfl
  | error msg =>
    rw [continueConversationTr_error st now messages userImage imageOracle
      completionOracle msg h]
    by_cases hr : rateLimitSignal msg
    · simp [hr]
    · simp [hr]

theorem sendMessageTr_throttle (s : AppState) (now : Int)
    (imageOracle : Except String String)
    (completionOracle : String → Except String String) :
    ((sendMessageTr s now imageOracle completionOracle).1).throttle = s.throttle ∨
    ((sendMessageTr s now imageOracle completionOracle).1).throttle =
      (continueConversationTr s.throttle now
        ((s.chatMessages ++
          [({ role := "user", content := jsTrim s.currentMessage, timestamp := now } :
            ChatMessage)]).map toApiMessage)
        s.chatImage imageOracle completionOracle).2.1 := by
  unfold sendMessageTr
  split
  · exact Or.inl rfl
  · cases hco : (continueConversationTr s.throttle now
        ((s.chatMessages ++
          [({ role := "user", content := jsTrim s.currentMessage, timestamp := now } :
            ChatMessage)]).map toApiMessage)
        s.chatImage imageOracle completionOracle).1 with
    | ok result =>
      simp only [hco]
      right
      trivial
    | error msg =>
      simp only [hco]
      right
      trivial

theorem appStep_minInterval (s : AppState) (op : CtrlOp) (h : MinInv s) :
    MinInv (appStep s op).1 ∧
      s.throttle.minRequestInterval ≤ ((appStep s op).1).throttle.minRequestInterval := by
  cases op with
  | start now gatewayReply =>
    have hth : ((appStep s (CtrlOp.start now gatewayReply)).1).throttle = s.throttle := by
      cases gatewayReply <;> rfl
    exact ⟨by simp only [MinInv, hth]; exact h, by rw [hth]⟩
  | send now imageOracle completionOracle =>
    have h1 : (appStep s (CtrlOp.send now imageOracle completionOracle)).1
        = (sendMessageTr s now imageOracle completionOracle).1 := rfl
    rcases sendMessageTr_throttle s now imageOracle completionOracle with ht | ht
    · exact ⟨by simp only [MinInv, h1, ht]; exact h, by rw [h1, ht]⟩
    · rcases continueConversationTr_min_cases s.throttle now
        ((s.chatMessages ++
          [({ role := "user", content := jsTrim s.currentMessage, timestamp := now } :
            ChatMessage)]).map toApiMessage)
        s.chatImage imageOracle completionOracle with hm | hm
      · constructor
        · simp only [MinInv, h1, ht, hm]
          exact h
        · rw [h1, ht, hm]
      · constructor
        · unfold MinInv
          rw [h1, ht, hm]
          exact Or.inr rfl
        · rw [h1, ht, hm]
          rcases h with h5 | h10
          · rw [h5]; decide
          · rw [h10]

theorem appRun_minInterval (ops : List CtrlOp) (s : AppState) (h : MinInv s) :
    MinInv ((appRun s ops).1) ∧
      s.throttle.minRequestInterval ≤ ((appRun s ops).1).throttle.minRequestInterval := by
  induction ops generalizing s with
  | nil => exact ⟨h, le_refl _⟩
  | cons op ops ih =>
    have h1 := appStep_minInterval s op h
    have h2 := ih (appStep s op).1 h1.1
    have hr : (appRun s (op :: ops)).1 = (appRun (appStep s op).1 ops).1 := rfl
    rw [hr]
    exact ⟨h2.1, le_trans h1.2 h2.2⟩

theorem appReachable_minInv (s : AppState) (h : AppReachable s) : MinInv s := by
  obtain ⟨ops, rfl⟩ := h
  exact (appRun_minInterval ops initialAppState (Or.inl rfl)).1

/-- C3: over any sequence of controller operations from a reachable
state, `minRequestInterval` is monotonically non-decreasing; on a
gateway failure of `continueConversation` that signals rate-limiting
(message containing `429`/`529`) it becomes
`max(minIntervalMs, 10000)` (the code writes the constant `10000`,
which equals the max because reachable values are 5000 or 10000), and
a gateway failure that does not signal rate-limiting never changes
it. -/
theorem C3_min_interval_ratchet :
    (∀ s : AppState, AppReachable s → ∀ ops : List CtrlOp,
        s.throttle.minRequestInterval
          ≤ ((appRun s ops).1).throttle.minRequestInterval) ∧
    (∀ s : AppState, AppReachable s →
      ∀ (now : Int) (msgs : List ApiMessage) (userImage : Bool)
        (imageOracle : Except String String)
        (completionOracle : String → Except String String) (e : String),
        (continueConversationTr s.throttle now msgs userImage imageOracle
            completionOracle).1 = Except.error e →
        (rateLimitSignal e = true →
          ((continueConversationTr s.throttle now msgs userImage imageOracle
              completionOracle).2.1).minRequestInterval
            = max s.throttle.minRequestInterval 10000) ∧
        (rateLimitSignal e = false →
          ((continueConversationTr s.throttle now msgs userImage imageOracle
              completionOracle).2.1).minRequestInterval
            = s.throttle.minRequestInterval)) := by
  constructor
  · intro s hs ops
    exact (appRun_minInterval ops s (appReachable_minInv s hs)).2
  · intro s hs now msgs userImage imageOracle completionOracle e he
    have hmin := appReachable_minInv s hs
    cases hco : completionOracle
        (composePrompt (if userImage then appendImageNote msgs else msgs)) with
    | ok text =>
      rw [continueConversationTr_ok s.throttle now msgs userImage imageOracle
        completionOracle text hco] at he
      exact absurd he (by simp)
    | error msg =>
      rw [continueConversationTr_error s.throttle now msgs userImage imageOracle
        completionOracle msg hco] at he
      have hme : msg = e := by simpa using he
      subst hme
      rw [continueConversationTr_error s.throttle now msgs userImage imageOracle
        completionOracle msg hco]
      constructor
      · intro hsig
        simp only [hsig, if_true]
        rcases hmin with h5 | h10
        · rw [h5]; decide
        · rw [h10]; decide
      · intro hsig
        simp only [hsig, Bool.false_eq_true, if_false]

theorem C3_min_interval_ratchet_witness :
    initialAppState.throttle.minRequestInterval ≤
      ((appRun initialAppState
        [CtrlOp.start 1 (Except.ok "hi")]).1).throttle.minRequestInterval ∧
    ((continueConversationTr initialAppState.throttle 1 [] false (Except.ok "x")
        (fun _ => Except.error "429")).2.1).minRequestInterval
      = max initialAppState.throttle.minRequestInterval 10000 :=
  ⟨C3_min_interval_ratchet.1 initialAppState ⟨[], rfl⟩ [CtrlOp.start 1 (Except.ok "hi")],
   (C3_min_interval_ratchet.2 initialAppState ⟨[], rfl⟩ 1 [] false (Except.ok "x")
      (fun _ => Except.error "429") "429" rfl).1 (by decide)⟩
